import Mathlib

/-!
Verification development for the gravity-vector aiding source of the PX4 EKF
(`src/modules/ekf2/EKF/gravity_fusion.cpp`, function `Ekf::controlGravityFusion`).

The C++ code is shallowly embedded over exact rational arithmetic (`ℚ` in place
of `float`).  The externally defined collaborators of `controlGravityFusion`
(`sym::ComputeGravityInnovVarAndKAndH` and `Ekf::measurementUpdate`, whose
bodies live outside the visible source) are taken as explicit function
parameters, so every theorem below quantifies over all possible behaviours of
those collaborators.  The small helpers `resetEstimatorAidStatus` and
`setEstimatorAidStatusTestRatio`, also outside the visible source, are modelled
from the specification text.
-/

namespace PX4

/-- Square of a rational, mirroring the C++ helper `sq`. -/
def sq (x : ℚ) : ℚ := x * x

/-- Standard gravity, `CONSTANTS_ONE_G = 9.80665 m/s²`, the standard gravity
constant named in the spec. -/
def CONSTANTS_ONE_G : ℚ := 980665 / 100000

/-- `FLT_EPSILON = 2⁻²³`, the numerical floor passed to the innovation/gain
computer. -/
def FLT_EPSILON : ℚ := 1 / 8388608

/-- A three-component vector of scalars, mirroring `Vector3f`. -/
structure Vector3 where
  x : ℚ
  y : ℚ
  z : ℚ
deriving DecidableEq

/-- `Vector3f::norm_squared`: sum of squared components. -/
def Vector3.norm_squared (v : Vector3) : ℚ := v.x * v.x + v.y * v.y + v.z * v.z

/-- Componentwise division of a vector by a scalar (`Vector3f::operator/`). -/
def Vector3.divScalar (v : Vector3) (c : ℚ) : Vector3 :=
  ⟨v.x / c, v.y / c, v.z / c⟩

/-- Componentwise vector subtraction (`Vector3f::operator-`). -/
def Vector3.sub (a b : Vector3) : Vector3 :=
  ⟨a.x - b.x, a.y - b.y, a.z - b.z⟩

/-- The fields of `imuSample` read by `controlGravityFusion`: timestamp,
delta-velocity, its integration time, and the three per-axis clipping flags. -/
structure ImuSample where
  time_us : ℕ
  delta_vel : Vector3
  delta_vel_dt : ℚ
  delta_vel_clipping0 : Bool
  delta_vel_clipping1 : Bool
  delta_vel_clipping2 : Bool
deriving DecidableEq

/-- The parameters read by `controlGravityFusion`: the gravity observation
noise and the gravity-vector bit of the `imu_ctrl` enable bitmask.  The
`ImuCtrl` enum is not part of the visible source, so the bitmask test
`_params.imu_ctrl & ImuCtrl::GravityVector` is carried as the boolean value it
evaluates to. -/
structure Params where
  gravity_noise : ℚ
  gravity_vector_enabled : Bool
deriving DecidableEq

/-- The `_control_status.flags` bits touched by `controlGravityFusion`:
`gravity_vector` (written) and `vehicle_at_rest` (read). -/
structure ControlStatus where
  gravity_vector : Bool
  vehicle_at_rest : Bool
deriving DecidableEq

/-- The estimator aid source status record (`estimator_aid_source3d_s`) for the
gravity source, with the scalar test ratio of the spec data model. -/
structure AidSourceStatus where
  timestamp_sample : ℕ
  time_last_fuse : ℕ
  observation : Vector3
  observation_variance : Vector3
  innovation : Vector3
  innovation_variance : Vector3
  test_ratio : ℚ
  innovation_rejected : Bool
  fused : Bool
deriving DecidableEq

/-- The estimator members read or written by `controlGravityFusion`.  The full
state vector and covariance matrix are abstracted as one value of an arbitrary
type `σ`, mutated only through the external `measurementUpdate`. -/
structure Ekf (σ : Type) where
  state_cov : σ
  accel_vec_filt : Vector3
  control_status : ControlStatus
  aid_src_gravity : AidSourceStatus
  params : Params

/-- Output bundle of the external innovation/gain computer
`sym::ComputeGravityInnovVarAndKAndH`: innovation, innovation variance, and one
Kalman gain vector per axis (gain vectors of an arbitrary type `κ`). -/
structure InnovGain (κ : Type) where
  innovation : Vector3
  innovation_variance : Vector3
  Kx : κ
  Ky : κ
  Kz : κ

/-- Modelled from the spec: `resetEstimatorAidStatus` — the diagnostic record
is "reset at the start of every cycle"; the timestamp of last successful fuse
is persistent cross-cycle state and survives the reset (spec §3, §4.5). -/
def resetEstimatorAidStatus (s : AidSourceStatus) : AidSourceStatus :=
  { timestamp_sample := 0,
    time_last_fuse := s.time_last_fuse,
    observation := ⟨0, 0, 0⟩,
    observation_variance := ⟨0, 0, 0⟩,
    innovation := ⟨0, 0, 0⟩,
    innovation_variance := ⟨0, 0, 0⟩,
    test_ratio := 0,
    innovation_rejected := false,
    fused := false }

/-- Modelled from the spec: the scalar test ratio of the record — "innovation
squared divided by innovation variance", taken over the three axes (the record
stores one scalar; an axis exceeding the gate rejects the whole observation, so
the scalar is the largest per-axis quotient, spec §4.3 and scenario D). -/
def gravityTestRatio (innovation innovation_variance : Vector3) : ℚ :=
  max (sq innovation.x / innovation_variance.x)
    (max (sq innovation.y / innovation_variance.y)
      (sq innovation.z / innovation_variance.z))

/-- Modelled from the spec: `setEstimatorAidStatusTestRatio` — "compute a
normalized test ratio (innovation-squared divided by innovation-variance,
compared against a configured gate multiplier ...). Sets `innovation_rejected`
when the ratio exceeds the gate" (spec §4.3). -/
def setEstimatorAidStatusTestRatio (s : AidSourceStatus) (innovation_gate : ℚ) :
    AidSourceStatus :=
  { s with
    test_ratio := gravityTestRatio s.innovation s.innovation_variance,
    innovation_rejected := decide ( gravityTestRatio s.innovation s.innovation_variance > innovation_gate) }

/-- `imu.delta_vel / imu.delta_vel_dt - _state.accel_bias`: the raw
accelerometer reading at the delayed horizon (gravity_fusion.cpp line 50).
The accelerometer bias is extracted from the abstract shared state by the
accessor `accel_bias`. -/
def gravityMeasurement {σ : Type} (accel_bias : σ → Vector3) (s : σ)
    (imu : ImuSample) : Vector3 :=
  Vector3.sub ( Vector3.divScalar imu.delta_vel imu.delta_vel_dt) (accel_bias s)

/-- `math::max(sq(_params.gravity_noise), sq(0.01f))`: the measurement variance
(gravity_fusion.cpp line 51). -/
def gravityMeasurementVar (p : Params) : ℚ :=
  max (sq p.gravity_noise) (sq (1 / 100))

/-- The magnitude band test applied to both the low-pass-filtered and the
instantaneous acceleration: squared norm strictly between
`sq(CONSTANTS_ONE_G * 0.9)` and `sq(CONSTANTS_ONE_G * 1.1)`
(gravity_fusion.cpp lines 53-59). -/
def accelNormGood (v : Vector3) : Bool :=
  decide ( Vector3.norm_squared v > sq (CONSTANTS_ONE_G * (9 / 10))) &&
  decide ( Vector3.norm_squared v < sq (CONSTANTS_ONE_G * (11 / 10)))

/-- The eligibility expression assigned to `_control_status.flags.gravity_vector`
(gravity_fusion.cpp lines 61-63): modality enabled, AND (both magnitude checks
pass OR the vehicle is at rest), AND no horizontal aiding active. -/
def gravityEligibility (enabled at_rest horiz : Bool)
    (accel_vec_filt measurement : Vector3) : Bool :=
  enabled && (( accelNormGood accel_vec_filt && accelNormGood measurement) || at_rest) && !horiz

/-- `imu.delta_vel_clipping[0] || imu.delta_vel_clipping[1] ||
imu.delta_vel_clipping[2]` (gravity_fusion.cpp line 88). -/
def accelClipping (imu : ImuSample) : Bool :=
  imu.delta_vel_clipping0 || imu.delta_vel_clipping1 || imu.delta_vel_clipping2

/-- The call to the external `sym::ComputeGravityInnovVarAndKAndH`
(gravity_fusion.cpp lines 69-72), at the arguments the source passes:
current state/covariance, the measurement, the clamped measurement variance,
and `FLT_EPSILON`. -/
def gravityInnovGain {σ κ : Type} (accel_bias : σ → Vector3)
    (compute : σ → Vector3 → ℚ → ℚ → InnovGain κ) (e : Ekf σ)
    (imu : ImuSample) : InnovGain κ :=
  compute e.state_cov ( gravityMeasurement accel_bias e.state_cov imu)
    ( gravityMeasurementVar e.params) FLT_EPSILON

/-- The diagnostic record after the unconditional per-cycle population
(gravity_fusion.cpp lines 74-86): reset, stamp of the sample timestamp, copy of
observation and its variance, copy of innovation and innovation variance, and
the rejection test with `innovation_gate = 1.f`. -/
def gravityAidPreFuse {σ κ : Type} (accel_bias : σ → Vector3)
    (compute : σ → Vector3 → ℚ → ℚ → InnovGain κ) (e : Ekf σ)
    (imu : ImuSample) : AidSourceStatus :=
  setEstimatorAidStatusTestRatio
    { resetEstimatorAidStatus e.aid_src_gravity with
      timestamp_sample := imu.time_us,
      observation := gravityMeasurement accel_bias e.state_cov imu,
      observation_variance :=
        ⟨ gravityMeasurementVar e.params, gravityMeasurementVar e.params, gravityMeasurementVar e.params⟩,
      innovation := InnovGain.innovation ( gravityInnovGain accel_bias compute e imu),
      innovation_variance :=
        InnovGain.innovation_variance ( gravityInnovGain accel_bias compute e imu) } 1

/-- The short-circuit conjunction of the three per-axis `measurementUpdate`
calls (gravity_fusion.cpp lines 92-95): x, then y, then z; a failed axis skips
the remaining axes but keeps the state already produced. -/
def fuseGravityAxes {σ κ : Type} (measurementUpdate : κ → ℚ → ℚ → σ → Bool × σ)
    (ig : InnovGain κ) (s : σ) : Bool × σ :=
  match measurementUpdate ig.Kx ig.innovation_variance.x ig.innovation.x s with
  | (false, s1) => (false, s1)
  | (true, s1) =>
    match measurementUpdate ig.Ky ig.innovation_variance.y ig.innovation.y s1 with
    | (false, s2) => (false, s2)
    | (true, s2) => measurementUpdate ig.Kz ig.innovation_variance.z ig.innovation.z s2

/-- Shallow embedding of `Ekf::controlGravityFusion` (gravity_fusion.cpp lines
48-100).  `accel_bias` reads the accelerometer bias out of the abstract shared
state; `compute` is the external `sym::ComputeGravityInnovVarAndKAndH`;
`measurementUpdate` is the external `Ekf::measurementUpdate`;
`isHorizontalAidingActive` is the value of the call of the same name. -/
def controlGravityFusion {σ κ : Type} (accel_bias : σ → Vector3)
    (compute : σ → Vector3 → ℚ → ℚ → InnovGain κ)
    (measurementUpdate : κ → ℚ → ℚ → σ → Bool × σ)
    (isHorizontalAidingActive : Bool) (e : Ekf σ) (imu : ImuSample) : Ekf σ :=
  let gravity_vector := gravityEligibility e.params.gravity_vector_enabled
    e.control_status.vehicle_at_rest isHorizontalAidingActive e.accel_vec_filt
    ( gravityMeasurement accel_bias e.state_cov imu)
  let aid := gravityAidPreFuse accel_bias compute e imu
  let cs : ControlStatus :=
    { gravity_vector := gravity_vector,
      vehicle_at_rest := e.control_status.vehicle_at_rest }
  if gravity_vector && !aid.innovation_rejected && !( accelClipping imu) then
    let fr := fuseGravityAxes measurementUpdate
      ( gravityInnovGain accel_bias compute e imu) e.state_cov
    { e with
      state_cov := fr.2,
      control_status := cs,
      aid_src_gravity :=
        { aid with
          fused := fr.1,
          time_last_fuse := if fr.1 then imu.time_us else aid.time_last_fuse } }
  else
    { e with control_status := cs, aid_src_gravity := aid }

/-- Guarded (total) embedding of the measurement computation of line 50: the
division by `delta_vel_dt` is made explicit, returning `none` when the
integration time is zero. -/
def gravityMeasurementChecked {σ : Type} (accel_bias : σ → Vector3) (s : σ)
    (imu : ImuSample) : Option Vector3 :=
  if imu.delta_vel_dt = 0 then none
  else some ( Vector3.sub ( Vector3.divScalar imu.delta_vel imu.delta_vel_dt) (accel_bias s))

/-- Following the wording of the spec for the closed-interval reading of the magnitude
band: squared magnitude inside `[(0.9g)², (1.1g)²]`, boundaries included.  Used
only to compare the closed band of the spec against the strict band of the
source. -/
def accelNormGoodClosed (v : Vector3) : Bool :=
  decide ( Vector3.norm_squared v ≥ sq (CONSTANTS_ONE_G * (9 / 10))) &&
  decide ( Vector3.norm_squared v ≤ sq (CONSTANTS_ONE_G * (11 / 10)))


/-! Concrete instantiations used by witnesses and counterexamples. -/

/-- Trivial accelerometer-bias accessor over a `ℕ`-valued abstract state. -/
def accelBiasN : ℕ → Vector3 := fun _ => ⟨0, 0, 0⟩

/-- Constant innovation/gain computer: zero innovation, unit variance. -/
def computeN : ℕ → Vector3 → ℚ → ℚ → InnovGain Unit :=
  fun _ _ _ _ => ⟨⟨0, 0, 0⟩, ⟨1, 1, 1⟩, (), (), ()⟩

/-- A per-axis update that succeeds exactly on state `0` and always increments
the state: the x axis succeeds, the y axis fails. -/
def mUfailSecond : Unit → ℚ → ℚ → ℕ → Bool × ℕ := fun _ _ _ s => (s == 0, s + 1)

/-- A per-axis update that always succeeds and increments the state. -/
def mUstep : Unit → ℚ → ℚ → ℕ → Bool × ℕ := fun _ _ _ s => (true, s + 1)

/-- An all-zero diagnostic record. -/
def aidInit : AidSourceStatus :=
  ⟨0, 0, ⟨0, 0, 0⟩, ⟨0, 0, 0⟩, ⟨0, 0, 0⟩, ⟨0, 0, 0⟩, 0, false, false⟩

/-- Estimator snapshot: gravity fusion enabled, vehicle at rest. -/
def ekfRestN : Ekf ℕ :=
  { state_cov := 0, accel_vec_filt := ⟨0, 0, 0⟩,
    control_status := ⟨false, true⟩, aid_src_gravity := aidInit,
    params := ⟨0, true⟩ }

/-- Estimator snapshot: gravity fusion disabled, vehicle at rest. -/
def ekfDisabledRest : Ekf ℕ :=
  { state_cov := 0, accel_vec_filt := ⟨0, 0, 0⟩,
    control_status := ⟨false, true⟩, aid_src_gravity := aidInit,
    params := ⟨0, false⟩ }

/-- A vector of squared magnitude exactly `(0.9·g)²`, on the band boundary. -/
def lowerG : Vector3 := ⟨CONSTANTS_ONE_G * (9 / 10), 0, 0⟩

/-- A vector of squared magnitude `(9.81)²`, inside the magnitude band. -/
def oneG : Vector3 := ⟨981 / 100, 0, 0⟩

/-- Estimator snapshot: enabled, not at rest, filtered acceleration exactly on
the lower band boundary. -/
def ekfBoundary : Ekf ℕ :=
  { state_cov := 0, accel_vec_filt := lowerG,
    control_status := ⟨false, false⟩, aid_src_gravity := aidInit,
    params := ⟨0, true⟩ }

/-- Estimator snapshot: enabled, not at rest, filtered acceleration close to
one standard gravity. -/
def ekfOneG : Ekf ℕ :=
  { state_cov := 0, accel_vec_filt := oneG,
    control_status := ⟨false, false⟩, aid_src_gravity := aidInit,
    params := ⟨0, true⟩ }

/-- IMU sample with zero delta-velocity and unit integration time. -/
def imuN : ImuSample := ⟨7, ⟨0, 0, 0⟩, 1, false, false, false⟩

/-- IMU sample whose measurement has magnitude 12 m/s². -/
def imu12 : ImuSample := ⟨3, ⟨12, 0, 0⟩, 1, false, false, false⟩

/-- IMU sample whose measurement lies exactly on the lower band boundary. -/
def imuBoundary : ImuSample := ⟨4, lowerG, 1, false, false, false⟩

/-- IMU sample whose measurement is close to one standard gravity. -/
def imuOneG : ImuSample := ⟨5, oneG, 1, false, false, false⟩

/-- IMU sample with delta-velocity clipping reported on the x axis. -/
def imuClip : ImuSample := ⟨6, ⟨0, 0, 0⟩, 1, true, false, false⟩

/-! Helper lemmas shared by the claim proofs. -/

theorem cgf_gravity_vector {σ κ : Type} (ab : σ → Vector3)
    (c : σ → Vector3 → ℚ → ℚ → InnovGain κ) (mU : κ → ℚ → ℚ → σ → Bool × σ)
    (horiz : Bool) (e : Ekf σ) (imu : ImuSample) :
    (controlGravityFusion ab c mU horiz e imu).control_status.gravity_vector =
      gravityEligibility e.params.gravity_vector_enabled
        e.control_status.vehicle_at_rest horiz e.accel_vec_filt
        ( gravityMeasurement ab e.state_cov imu) := by
  simp only [controlGravityFusion]
  split <;> rfl

theorem cgf_vehicle_at_rest {σ κ : Type} (ab : σ → Vector3)
    (c : σ → Vector3 → ℚ → ℚ → InnovGain κ) (mU : κ → ℚ → ℚ → σ → Bool × σ)
    (horiz : Bool) (e : Ekf σ) (imu : ImuSample) :
    (controlGravityFusion ab c mU horiz e imu).control_status.vehicle_at_rest =
      e.control_status.vehicle_at_rest := by
  simp only [controlGravityFusion]
  split <;> rfl

theorem cgf_aid_rejected {σ κ : Type} (ab : σ → Vector3)
    (c : σ → Vector3 → ℚ → ℚ → InnovGain κ) (mU : κ → ℚ → ℚ → σ → Bool × σ)
    (horiz : Bool) (e : Ekf σ) (imu : ImuSample) :
    (controlGravityFusion ab c mU horiz e imu).aid_src_gravity.innovation_rejected =
      ( gravityAidPreFuse ab c e imu).innovation_rejected := by
  simp only [controlGravityFusion]
  split <;> rfl

theorem cgf_skip {σ κ : Type} (ab : σ → Vector3)
    (c : σ → Vector3 → ℚ → ℚ → InnovGain κ) (mU : κ → ℚ → ℚ → σ → Bool × σ)
    (horiz : Bool) (e : Ekf σ) (imu : ImuSample)
    (h : ( gravityEligibility e.params.gravity_vector_enabled
        e.control_status.vehicle_at_rest horiz e.accel_vec_filt
        ( gravityMeasurement ab e.state_cov imu) &&
        !( gravityAidPreFuse ab c e imu).innovation_rejected &&
        !( accelClipping imu)) = false) :
    controlGravityFusion ab c mU horiz e imu =
      { e with
        control_status :=
          { gravity_vector := gravityEligibility e.params.gravity_vector_enabled
              e.control_status.vehicle_at_rest horiz e.accel_vec_filt
              ( gravityMeasurement ab e.state_cov imu),
            vehicle_at_rest := e.control_status.vehicle_at_rest },
        aid_src_gravity := gravityAidPreFuse ab c e imu } := by
  simp only [controlGravityFusion, h]
  rfl

theorem cgf_fuse {σ κ : Type} (ab : σ → Vector3)
    (c : σ → Vector3 → ℚ → ℚ → InnovGain κ) (mU : κ → ℚ → ℚ → σ → Bool × σ)
    (horiz : Bool) (e : Ekf σ) (imu : ImuSample)
    (h : ( gravityEligibility e.params.gravity_vector_enabled
        e.control_status.vehicle_at_rest horiz e.accel_vec_filt
        ( gravityMeasurement ab e.state_cov imu) &&
        !( gravityAidPreFuse ab c e imu).innovation_rejected &&
        !( accelClipping imu)) = true) :
    controlGravityFusion ab c mU horiz e imu =
      { e with
        state_cov := ( fuseGravityAxes mU ( gravityInnovGain ab c e imu) e.state_cov).2,
        control_status :=
          { gravity_vector := gravityEligibility e.params.gravity_vector_enabled
              e.control_status.vehicle_at_rest horiz e.accel_vec_filt
              ( gravityMeasurement ab e.state_cov imu),
            vehicle_at_rest := e.control_status.vehicle_at_rest },
        aid_src_gravity :=
          { gravityAidPreFuse ab c e imu with
            fused := ( fuseGravityAxes mU ( gravityInnovGain ab c e imu) e.state_cov).1,
            time_last_fuse :=
              if ( fuseGravityAxes mU ( gravityInnovGain ab c e imu) e.state_cov).1
              then imu.time_us else ( gravityAidPreFuse ab c e imu).time_last_fuse } } := by
  simp only [controlGravityFusion, h]
  rfl

/-! Claim theorems. -/

/-- C5: for every input, whenever a competing horizontal-aiding source is
reported active, the eligibility flag computed by `controlGravityFusion` is
false, regardless of measurement magnitudes, the at-rest flag and the enable
mask. -/
theorem gravity_eligibility_horizontal_exclusion {σ κ : Type} (ab : σ → Vector3)
    (c : σ → Vector3 → ℚ → ℚ → InnovGain κ) (mU : κ → ℚ → ℚ → σ → Bool × σ)
    (e : Ekf σ) (imu : ImuSample) :
    (controlGravityFusion ab c mU true e imu).control_status.gravity_vector = false := by
  rw [cgf_gravity_vector]
  simp [gravityEligibility]

/-- C4: when the vehicle-at-rest flag is set, the eligibility flag computed by
`controlGravityFusion` does not depend on the measurement: two calls that
differ only in the low-pass-filtered accelerometer vector and in the delta
velocity and integration time defining the instantaneous measurement produce
the same eligibility value. -/
theorem gravity_eligibility_at_rest_independent {σ κ : Type} (ab : σ → Vector3)
    (c : σ → Vector3 → ℚ → ℚ → InnovGain κ) (mU : κ → ℚ → ℚ → σ → Bool × σ)
    (horiz : Bool) (e : Ekf σ) (imu : ImuSample) (filt2 dv2 : Vector3) (dt2 : ℚ)
    (h : e.control_status.vehicle_at_rest = true) :
    (controlGravityFusion ab c mU horiz
        { e with accel_vec_filt := filt2 }
        { imu with delta_vel := dv2, delta_vel_dt := dt2 }).control_status.gravity_vector =
      (controlGravityFusion ab c mU horiz e imu).control_status.gravity_vector := by
  rw [cgf_gravity_vector, cgf_gravity_vector]
  simp [gravityEligibility, h]

/-- C4 witness: at rest, a call with zero measurement and a call with a huge
measurement and a different filtered vector agree on eligibility. -/
theorem gravity_eligibility_at_rest_independent_witness :
    (controlGravityFusion accelBiasN computeN mUstep false
        { ekfRestN with accel_vec_filt := ⟨5, 5, 5⟩ }
        { imuN with delta_vel := ⟨100, 0, 0⟩, delta_vel_dt := 3 }).control_status.gravity_vector =
      (controlGravityFusion accelBiasN computeN mUstep false ekfRestN imuN).control_status.gravity_vector :=
  gravity_eligibility_at_rest_independent accelBiasN computeN mUstep false
    ekfRestN imuN ⟨5, 5, 5⟩ ⟨100, 0, 0⟩ 3 rfl

/-- C8 (amended): if the measurement magnitude is 12.0 m/s² (squared magnitude
144, above the 1.1 g band), the at-rest flag is set, the modality is enabled
and no horizontal-aiding source is active, then the eligibility flag computed
by `controlGravityFusion` is true. -/
theorem gravity_scenario_c {σ κ : Type} (ab : σ → Vector3)
    (c : σ → Vector3 → ℚ → ℚ → InnovGain κ) (mU : κ → ℚ → ℚ → σ → Bool × σ)
    (e : Ekf σ) (imu : ImuSample)
    (hmag : Vector3.norm_squared ( gravityMeasurement ab e.state_cov imu) = 144)
    (hrest : e.control_status.vehicle_at_rest = true)
    (hen : e.params.gravity_vector_enabled = true) :
    (controlGravityFusion ab c mU false e imu).control_status.gravity_vector = true := by
  rw [cgf_gravity_vector]
  simp [gravityEligibility, hrest, hen]

/-- C8 witness: measurement (12, 0, 0) over one second with zero bias, at
rest, enabled, no horizontal aiding: eligibility is true. -/
theorem gravity_scenario_c_witness :
    (controlGravityFusion accelBiasN computeN mUstep false ekfRestN imu12).control_status.gravity_vector = true :=
  gravity_scenario_c accelBiasN computeN mUstep ekfRestN imu12
    (by norm_num [gravityMeasurement, Vector3.norm_squared, Vector3.divScalar,
      Vector3.sub, accelBiasN, ekfRestN, imu12]) rfl rfl

/-- C8 counterexample: the claim as stated omits the enable mask and the
mutual-exclusion condition; with the modality disabled, a measurement of
magnitude 12 m/s² and the at-rest flag set yield eligibility false. -/
theorem gravity_scenario_c_counterexample :
    Vector3.norm_squared ( gravityMeasurement accelBiasN ekfDisabledRest.state_cov imu12) = 144 ∧
    ekfDisabledRest.control_status.vehicle_at_rest = true ∧
    (controlGravityFusion accelBiasN computeN mUstep false ekfDisabledRest imu12).control_status.gravity_vector = false := by
  refine ⟨?_, rfl, ?_⟩
  · norm_num [gravityMeasurement, Vector3.norm_squared, Vector3.divScalar,
      Vector3.sub, accelBiasN, ekfDisabledRest, imu12]
  · rw [cgf_gravity_vector]
    simp [gravityEligibility, ekfDisabledRest]

/-- C3 (amended): absent the at-rest override, eligibility holds iff the
modality is enabled, no horizontal-aiding source is active, and both the
filtered and the instantaneous squared magnitudes lie strictly inside the open
band ((0.9·g)², (1.1·g)²); the boundary magnitudes are excluded. -/
theorem gravity_eligibility_band {σ κ : Type} (ab : σ → Vector3)
    (c : σ → Vector3 → ℚ → ℚ → InnovGain κ) (mU : κ → ℚ → ℚ → σ → Bool × σ)
    (horiz : Bool) (e : Ekf σ) (imu : ImuSample)
    (h : e.control_status.vehicle_at_rest = false) :
    ((controlGravityFusion ab c mU horiz e imu).control_status.gravity_vector = true ↔
      (e.params.gravity_vector_enabled = true ∧ horiz = false ∧
        sq (CONSTANTS_ONE_G * (9 / 10)) < Vector3.norm_squared e.accel_vec_filt ∧
        Vector3.norm_squared e.accel_vec_filt < sq (CONSTANTS_ONE_G * (11 / 10)) ∧
        sq (CONSTANTS_ONE_G * (9 / 10)) < Vector3.norm_squared ( gravityMeasurement ab e.state_cov imu) ∧
        Vector3.norm_squared ( gravityMeasurement ab e.state_cov imu) < sq (CONSTANTS_ONE_G * (11 / 10)))) := by
  rw [cgf_gravity_vector]
  simp [gravityEligibility, accelNormGood, h]
  tauto

/-- C3 witness: a measurement and filtered vector of magnitude 9.81 (inside
the band), enabled, not at rest, no horizontal aiding: eligibility is true. -/
theorem gravity_eligibility_band_witness :
    (controlGravityFusion accelBiasN computeN mUstep false ekfOneG imuOneG).control_status.gravity_vector = true :=
  (gravity_eligibility_band accelBiasN computeN mUstep false ekfOneG imuOneG rfl).mpr
    ⟨rfl, rfl,
      by norm_num [Vector3.norm_squared, ekfOneG, oneG, sq, CONSTANTS_ONE_G],
      by norm_num [Vector3.norm_squared, ekfOneG, oneG, sq, CONSTANTS_ONE_G],
      by norm_num [gravityMeasurement, Vector3.norm_squared, Vector3.divScalar,
        Vector3.sub, accelBiasN, ekfOneG, imuOneG, oneG, sq, CONSTANTS_ONE_G],
      by norm_num [gravityMeasurement, Vector3.norm_squared, Vector3.divScalar,
        Vector3.sub, accelBiasN, ekfOneG, imuOneG, oneG, sq, CONSTANTS_ONE_G]⟩

/-- C3 counterexample: on the boundary magnitude `(0.9·g)²` the closed-interval
reading of the claim asserts eligibility, but the strict comparison in the
source
makes the eligibility flag false (modality enabled, not at rest, no horizontal
aiding, both vectors in the closed band). -/
theorem gravity_eligibility_band_counterexample :
    accelNormGoodClosed ekfBoundary.accel_vec_filt = true ∧
    accelNormGoodClosed ( gravityMeasurement accelBiasN ekfBoundary.state_cov imuBoundary) = true ∧
    ekfBoundary.params.gravity_vector_enabled = true ∧
    ekfBoundary.control_status.vehicle_at_rest = false ∧
    (controlGravityFusion accelBiasN computeN mUstep false ekfBoundary imuBoundary).control_status.gravity_vector = false := by
  have hm : gravityMeasurement accelBiasN ekfBoundary.state_cov imuBoundary = lowerG := by
    norm_num [gravityMeasurement, Vector3.divScalar, Vector3.sub, accelBiasN,
      ekfBoundary, imuBoundary, lowerG]
  have hband : accelNormGoodClosed lowerG = true := by
    norm_num [accelNormGoodClosed, Vector3.norm_squared, lowerG, sq, CONSTANTS_ONE_G]
  refine ⟨hband, by rw [hm]; exact hband, rfl, rfl, ?_⟩
  rw [cgf_gravity_vector, hm]
  norm_num [gravityEligibility, accelNormGood, ekfBoundary, lowerG,
    Vector3.norm_squared, sq, CONSTANTS_ONE_G]

/-- C6: every call to `controlGravityFusion`, eligible or not, resets the
diagnostic record and populates its sample timestamp, observation, per-axis
observation variance, innovation, innovation variance, and the test ratio. -/
theorem gravity_fusion_diagnostics_populated {σ κ : Type} (ab : σ → Vector3)
    (c : σ → Vector3 → ℚ → ℚ → InnovGain κ) (mU : κ → ℚ → ℚ → σ → Bool × σ)
    (horiz : Bool) (e : Ekf σ) (imu : ImuSample) :
    (controlGravityFusion ab c mU horiz e imu).aid_src_gravity.timestamp_sample = imu.time_us ∧
    (controlGravityFusion ab c mU horiz e imu).aid_src_gravity.observation =
      gravityMeasurement ab e.state_cov imu ∧
    (controlGravityFusion ab c mU horiz e imu).aid_src_gravity.observation_variance =
      ⟨ gravityMeasurementVar e.params, gravityMeasurementVar e.params, gravityMeasurementVar e.params⟩ ∧
    (controlGravityFusion ab c mU horiz e imu).aid_src_gravity.innovation =
      InnovGain.innovation ( gravityInnovGain ab c e imu) ∧
    (controlGravityFusion ab c mU horiz e imu).aid_src_gravity.innovation_variance =
      InnovGain.innovation_variance ( gravityInnovGain ab c e imu) ∧
    AidSourceStatus.test_ratio ((controlGravityFusion ab c mU horiz e imu).aid_src_gravity) =
      gravityTestRatio (InnovGain.innovation ( gravityInnovGain ab c e imu))
        (InnovGain.innovation_variance ( gravityInnovGain ab c e imu)) := by
  simp only [controlGravityFusion]
  split <;> exact ⟨rfl, rfl, rfl, rfl, rfl, rfl⟩

/-- C7: every cycle the diagnostic test ratio is the innovation squared divided
by the innovation variance (largest axis), the gate multiplier passed in this
instantiation is the literal 1, and `innovation_rejected` holds exactly when
the test ratio exceeds that gate. -/
theorem gravity_fusion_test_gate {σ κ : Type} (ab : σ → Vector3)
    (c : σ → Vector3 → ℚ → ℚ → InnovGain κ) (mU : κ → ℚ → ℚ → σ → Bool × σ)
    (horiz : Bool) (e : Ekf σ) (imu : ImuSample) :
    AidSourceStatus.test_ratio ((controlGravityFusion ab c mU horiz e imu).aid_src_gravity) =
      gravityTestRatio (InnovGain.innovation ( gravityInnovGain ab c e imu))
        (InnovGain.innovation_variance ( gravityInnovGain ab c e imu)) ∧
    ((controlGravityFusion ab c mU horiz e imu).aid_src_gravity.innovation_rejected = true ↔
      gravityTestRatio (InnovGain.innovation ( gravityInnovGain ab c e imu))
        (InnovGain.innovation_variance ( gravityInnovGain ab c e imu)) > 1) := by
  constructor
  · simp only [controlGravityFusion]
    split <;> rfl
  · rw [cgf_aid_rejected]
    simp [gravityAidPreFuse, setEstimatorAidStatusTestRatio]

/-- C9: the measurement variance used by `controlGravityFusion` — stored in the
record and passed to the innovation/gain computer — is
`max(gravity_noise², 0.01²)`, hence at least `10⁻⁴` and strictly positive for
every configuration, including a configured `gravity_noise` of zero; the clamp
is internal to this component. -/
theorem gravity_measurement_var_clamped {σ κ : Type} (ab : σ → Vector3)
    (c : σ → Vector3 → ℚ → ℚ → InnovGain κ) (mU : κ → ℚ → ℚ → σ → Bool × σ)
    (horiz : Bool) (e : Ekf σ) (imu : ImuSample) :
    gravityMeasurementVar e.params = max (sq e.params.gravity_noise) (sq (1 / 100)) ∧
    (1 / 10000 : ℚ) ≤ gravityMeasurementVar e.params ∧
    0 < gravityMeasurementVar e.params ∧
    (controlGravityFusion ab c mU horiz e imu).aid_src_gravity.observation_variance =
      ⟨ gravityMeasurementVar e.params, gravityMeasurementVar e.params, gravityMeasurementVar e.params⟩ ∧
    (controlGravityFusion ab c mU horiz e imu).aid_src_gravity.innovation =
      InnovGain.innovation (c e.state_cov ( gravityMeasurement ab e.state_cov imu)
        ( gravityMeasurementVar e.params) FLT_EPSILON) := by
  have hq : (1 / 10000 : ℚ) ≤ gravityMeasurementVar e.params := by
    have h1 : sq (1 / 100 : ℚ) = 1 / 10000 := by norm_num [sq]
    rw [gravityMeasurementVar, ← h1]
    exact le_max_right _ _
  refine ⟨rfl, hq, lt_of_lt_of_le (by norm_num) hq, ?_, ?_⟩
  · simp only [controlGravityFusion]
    split <;> rfl
  · simp only [controlGravityFusion]
    split <;> rfl

/-- C10: the measurement is `delta_vel / delta_vel_dt - accel_bias` with no
guard on the integration time: under the precondition `delta_vel_dt ≠ 0` the
guarded embedding of the division agrees with the unguarded one, and at
`delta_vel_dt = 0` the guarded embedding reaches its error branch. -/
theorem gravity_measurement_guarded_division {σ : Type} (ab : σ → Vector3)
    (s : σ) (imu : ImuSample) :
    (imu.delta_vel_dt ≠ 0 →
      gravityMeasurementChecked ab s imu = some ( gravityMeasurement ab s imu)) ∧
    (imu.delta_vel_dt = 0 → gravityMeasurementChecked ab s imu = none) := by
  constructor <;> intro h <;>
    simp [gravityMeasurementChecked, gravityMeasurement, h]

/-- C10 witness: for an integration time of one second the guarded measurement
is defined and agrees with the unguarded one. -/
theorem gravity_measurement_guarded_division_witness :
    imu12.delta_vel_dt ≠ 0 ∧
    gravityMeasurementChecked accelBiasN 0 imu12 =
      some ( gravityMeasurement accelBiasN 0 imu12) :=
  ⟨by norm_num [imu12],
    (gravity_measurement_guarded_division accelBiasN 0 imu12).1 (by norm_num [imu12])⟩

theorem fuseGravityAxes_eq {σ κ : Type} (mU : κ → ℚ → ℚ → σ → Bool × σ)
    (ig : InnovGain κ) (s : σ) (ok1 ok2 ok3 : Bool) (s1 s2 s3 : σ)
    (h1 : mU ig.Kx ig.innovation_variance.x ig.innovation.x s = (ok1, s1))
    (h2 : mU ig.Ky ig.innovation_variance.y ig.innovation.y s1 = (ok2, s2))
    (h3 : mU ig.Kz ig.innovation_variance.z ig.innovation.z s2 = (ok3, s3)) :
    fuseGravityAxes mU ig s =
      if ok1 then (if ok2 then (ok3, s3) else (false, s2)) else (false, s1) := by
  unfold fuseGravityAxes
  rw [h1]
  cases ok1 with
  | false => simp
  | true =>
    simp only []
    rw [h2]
    cases ok2 with
    | false => simp
    | true =>
      simp only []
      rw [h3]
      cases ok3 <;> simp

/-- C2: if fusion does not occur — eligibility false, innovation rejected, or
delta-velocity clipping on any axis — `controlGravityFusion` leaves the shared
state/covariance unchanged and writes only the eligibility flag and the
diagnostic record. -/
theorem gravity_fusion_no_mutation_on_skip {σ κ : Type} (ab : σ → Vector3)
    (c : σ → Vector3 → ℚ → ℚ → InnovGain κ) (mU : κ → ℚ → ℚ → σ → Bool × σ)
    (horiz : Bool) (e : Ekf σ) (imu : ImuSample)
    (h : (controlGravityFusion ab c mU horiz e imu).control_status.gravity_vector = false ∨
      (controlGravityFusion ab c mU horiz e imu).aid_src_gravity.innovation_rejected = true ∨
      accelClipping imu = true) :
    (controlGravityFusion ab c mU horiz e imu).state_cov = e.state_cov ∧
    (controlGravityFusion ab c mU horiz e imu).accel_vec_filt = e.accel_vec_filt ∧
    (controlGravityFusion ab c mU horiz e imu).control_status.vehicle_at_rest =
      e.control_status.vehicle_at_rest ∧
    (controlGravityFusion ab c mU horiz e imu).params = e.params ∧
    (controlGravityFusion ab c mU horiz e imu).aid_src_gravity =
      gravityAidPreFuse ab c e imu := by
  have hcond : ( gravityEligibility e.params.gravity_vector_enabled
      e.control_status.vehicle_at_rest horiz e.accel_vec_filt
      ( gravityMeasurement ab e.state_cov imu) &&
      !( gravityAidPreFuse ab c e imu).innovation_rejected &&
      !( accelClipping imu)) = false := by
    rcases h with h | h | h
    · rw [cgf_gravity_vector] at h
      simp [h]
    · rw [cgf_aid_rejected] at h
      simp [h]
    · simp [h]
  rw [cgf_skip ab c mU horiz e imu hcond]
  exact ⟨rfl, rfl, rfl, rfl, rfl⟩

/-- C2 witness: with clipping reported on the x axis and an always-mutating
per-axis update, the state is unchanged and the record equals the pre-fusion
diagnostic record. -/
theorem gravity_fusion_no_mutation_on_skip_witness :
    (controlGravityFusion accelBiasN computeN mUstep false ekfRestN imuClip).state_cov = ekfRestN.state_cov ∧
    (controlGravityFusion accelBiasN computeN mUstep false ekfRestN imuClip).aid_src_gravity =
      gravityAidPreFuse accelBiasN computeN ekfRestN imuClip := by
  have h := gravity_fusion_no_mutation_on_skip accelBiasN computeN mUstep false
    ekfRestN imuClip (Or.inr (Or.inr rfl))
  exact ⟨h.1, h.2.2.2.2⟩

/-- C1: when fusion is attempted (eligible, not rejected, no clipping), the
fused flag is the short-circuit conjunction of the three per-axis updates
(x, then y, then z); if the x axis fails the final state is the one produced
by the x update alone, if the y axis fails it is the one produced by x then y,
so earlier corrections remain applied while later axes are never attempted,
and the call reports not fused unless all three succeed. -/
theorem gravity_fusion_short_circuit {σ κ : Type} (ab : σ → Vector3)
    (c : σ → Vector3 → ℚ → ℚ → InnovGain κ) (mU : κ → ℚ → ℚ → σ → Bool × σ)
    (horiz : Bool) (e : Ekf σ) (imu : ImuSample)
    (ok1 ok2 ok3 : Bool) (s1 s2 s3 : σ)
    (h1 : mU (InnovGain.Kx ( gravityInnovGain ab c e imu))
      (Vector3.x (InnovGain.innovation_variance ( gravityInnovGain ab c e imu)))
      (Vector3.x (InnovGain.innovation ( gravityInnovGain ab c e imu)))
      e.state_cov = (ok1, s1))
    (h2 : mU (InnovGain.Ky ( gravityInnovGain ab c e imu))
      (Vector3.y (InnovGain.innovation_variance ( gravityInnovGain ab c e imu)))
      (Vector3.y (InnovGain.innovation ( gravityInnovGain ab c e imu)))
      s1 = (ok2, s2))
    (h3 : mU (InnovGain.Kz ( gravityInnovGain ab c e imu))
      (Vector3.z (InnovGain.innovation_variance ( gravityInnovGain ab c e imu)))
      (Vector3.z (InnovGain.innovation ( gravityInnovGain ab c e imu)))
      s2 = (ok3, s3))
    (hguard : (controlGravityFusion ab c mU horiz e imu).control_status.gravity_vector = true ∧
      (controlGravityFusion ab c mU horiz e imu).aid_src_gravity.innovation_rejected = false ∧
      accelClipping imu = false) :
    (controlGravityFusion ab c mU horiz e imu).aid_src_gravity.fused = (ok1 && ok2 && ok3) ∧
    (ok1 = false → (controlGravityFusion ab c mU horiz e imu).state_cov = s1) ∧
    (ok1 = true → ok2 = false → (controlGravityFusion ab c mU horiz e imu).state_cov = s2) ∧
    (ok1 = true → ok2 = true → (controlGravityFusion ab c mU horiz e imu).state_cov = s3) := by
  obtain ⟨hf, hr, hc⟩ := hguard
  rw [cgf_gravity_vector] at hf
  rw [cgf_aid_rejected] at hr
  have hcond : ( gravityEligibility e.params.gravity_vector_enabled
      e.control_status.vehicle_at_rest horiz e.accel_vec_filt
      ( gravityMeasurement ab e.state_cov imu) &&
      !( gravityAidPreFuse ab c e imu).innovation_rejected &&
      !( accelClipping imu)) = true := by
    simp [hf, hr, hc]
  rw [cgf_fuse ab c mU horiz e imu hcond,
    fuseGravityAxes_eq mU ( gravityInnovGain ab c e imu) e.state_cov ok1 ok2 ok3 s1 s2 s3 h1 h2 h3]
  refine ⟨?_, ?_, ?_, ?_⟩ <;> cases ok1 <;> cases ok2 <;> cases ok3 <;> simp

/-- C1 witness: with a per-axis update that succeeds on the x axis and fails
on the y axis, fusion is attempted, the fused flag is false, and the final
state is the one left by the two executed axis updates. -/
theorem gravity_fusion_short_circuit_witness :
    (controlGravityFusion accelBiasN computeN mUfailSecond false ekfRestN imuN).aid_src_gravity.fused = (true && false && false) ∧
    (controlGravityFusion accelBiasN computeN mUfailSecond false ekfRestN imuN).state_cov = 2 := by
  have h := gravity_fusion_short_circuit accelBiasN computeN mUfailSecond false
    ekfRestN imuN true false false 1 2 3 rfl rfl rfl
    ⟨by rw [cgf_gravity_vector]; simp [gravityEligibility, ekfRestN],
      by rw [cgf_aid_rejected]
         norm_num [gravityAidPreFuse, setEstimatorAidStatusTestRatio,
           gravityTestRatio, gravityInnovGain, computeN, sq],
      rfl⟩
  exact ⟨h.1, h.2.2.1 rfl rfl⟩

end PX4
